import Mathlib

/-!
Verification of `src/Shared/airtable_manager.py` (class `AirtableClient`).

The Python module is a thin synchronous wrapper around the Airtable HTTP
API.  The shallow embedding below models:

- Airtable field values (`Value`): Python `None`, scalar strings/booleans,
  and lists of scalars (linked-record fields).  These are the only value
  shapes the wrapper manipulates.
- a record (`AirRecord`): its string id plus a field dictionary, modelled
  as an association list with Python `dict` semantics (`getField` is
  `dict.get` with a `None` default, `setField` is item assignment, which
  replaces an existing key in place or appends a new one).
- every network call is modelled by passing its outcome in as an
  `Except String _` argument (`.ok` = the HTTP response, `.error` = the
  exception the underlying client library would raise).  Request-only
  parameters (view ids, field lists, `max_records`) are kept in the
  signatures where the source has them.
- `datetime.now(pytz.timezone("America/Bogota")).strftime("%Y-%m-%d")`
  reads the clock, so the current Bogota date string is a parameter
  (`todayStr`) of the embedding of `get_unposted_records_for_today`.
- a Python exception escaping a `try` block is modelled with `Option` /
  `Except`: `none` (resp. `.error`) where the source raises, and the
  `except` handlers of the source turn that into the return value of the handler.
-/

/-- Scalar Airtable field values handled by the wrapper: strings and
booleans. -/
inductive Scalar where
  | str (s : String)
  | bool (b : Bool)
deriving DecidableEq, Repr

/-- A Python value stored in a record field (or produced by `dict.get`):
`None`, a scalar, or a list of scalars (Airtable linked-record fields). -/
inductive Value where
  | vnone
  | scalar (c : Scalar)
  | list (vs : List Scalar)
deriving DecidableEq, Repr

/-- Python truthiness of a `Value`: `None`, `False`, the empty string and
the empty list are falsy; everything else is truthy. -/
def Value.truthy : Value → Bool
  | .vnone => false
  | .scalar (.str s) => s != ""
  | .scalar (.bool b) => b
  | .list vs => !vs.isEmpty

/-- `fields.get(key)` on a Python dict: the stored value, or `None` when
the key is absent. -/
def getField : List (String × Value) → String → Value
  | [], _ => .vnone
  | (k, v) :: rest, key => if k = key then v else getField rest key

/-- `fields[key] = v` on a Python dict: replace the value of an existing
key in place, or append the new key at the end. -/
def setField : List (String × Value) → String → Value → List (String × Value)
  | [], key, v => [(key, v)]
  | (k, w) :: rest, key, v =>
    if k = key then (key, v) :: rest else (k, w) :: setField rest key v

/-- An Airtable record as returned by `table.all`: `record["id"]` and
`record.get("fields", {})`. -/
structure AirRecord where
  id : String
  fields : List (String × Value)
deriving DecidableEq, Repr

/-- The local helper `flatten` of `get_pending_warmup_records`
(airtable_manager.py lines 203-206):
`value[0] if isinstance(value, list) and value else value`.
The inline normalization of `Package Name` at line 87 of
`get_unposted_records_for_today` is the same expression. -/
def flatten : Value → Value
  | .list (c :: _) => .scalar c
  | v => v

/-- `schedule_raw.split("T")[0]` (line 79): for the one-character
separator `"T"` this is exactly the prefix of the string before its first
`T` (the whole string when no `T` occurs, the empty string for the empty
string). -/
def dateOnly (s : String) : String :=
  String.mk (s.data.takeWhile (fun c => c != 'T'))

/-- The inner `fields` dict of an entry built by
`get_unposted_records_for_today` (lines 91-95). -/
structure UnpostedFields where
  username : Value
  package_name : Value
  media_url : Value
deriving DecidableEq, Repr

/-- One entry appended to `matching` by `get_unposted_records_for_today`
(lines 89-96). -/
structure UnpostedEntry where
  id : String
  fields : UnpostedFields
deriving DecidableEq, Repr

/-- Lines 84-96: the projection of a record appended to `matching`.
`Username` and `Drive URL` are read back verbatim; only `Package Name`
goes through the inline flatten of line 87. -/
def projectUnposted (record : AirRecord) : UnpostedEntry :=
  { id := record.id,
    fields := { username := getField record.fields "Username",
                package_name := flatten (getField record.fields "Package Name"),
                media_url := getField record.fields "Drive URL" } }

/-- The `for record in records` loop of `get_unposted_records_for_today`
(lines 70-101), with `matching` as the accumulator.  Returns `none` when
the body raises (calling `.split` on a truthy non-string
`Schedule Date` value raises `AttributeError`, which the enclosing
`except` catches); otherwise `some matching`. -/
def unpostedLoop (todayStr : String) (maxCount : Int) :
    List AirRecord → List UnpostedEntry → Option (List UnpostedEntry)
  | [], matching => some matching.reverse
  | record :: rest, matching =>
    let schedule_raw := getField record.fields "Schedule Date"
    if !schedule_raw.truthy then
      unpostedLoop todayStr maxCount rest matching
    else
      match schedule_raw with
      | .scalar (.str s) =>
        let scheduled_date := dateOnly s
        if scheduled_date != todayStr then
          unpostedLoop todayStr maxCount rest matching
        else
          let matching' := projectUnposted record :: matching
          if decide (maxCount ≤ (matching'.length : Int)) then some matching'.reverse
          else unpostedLoop todayStr maxCount rest matching'
      | _ => none

/-- `get_unposted_records_for_today(max_count)` (lines 60-105).
`apiResult` is the outcome of `table.all(view=...)`; `todayStr` is
`datetime.now(America/Bogota).strftime("%Y-%m-%d")`.  Any exception
(from the fetch or from the loop body) is caught and turned into `[]`
(lines 103-105). -/
def getUnpostedRecordsForToday (apiResult : Except String (List AirRecord))
    (todayStr : String) (maxCount : Int) : List UnpostedEntry :=
  match apiResult with
  | .error _ => []
  | .ok records =>
    match unpostedLoop todayStr maxCount records [] with
    | some matching => matching
    | none => []

/-- `update_record_fields(record_id, fields)` (lines 119-130): the update
result on success, `None` when `table.update` raises (the exception is
caught at lines 128-130). -/
def updateRecordFields (record_id : String) (fields : List (String × Value))
    (apiResult : Except String AirRecord) : Option AirRecord :=
  match apiResult with
  | .ok result => some result
  | .error _ => none

/-- `mark_something_went_wrong_and_rotate(record_id)` (lines 107-117).
The `try` body calls `update_record_fields`, which catches every
exception internally and returns `None` on failure, then logs and
returns `True`; nothing in the body can raise, so the `except` branch
(lines 115-117, `return False`) is unreachable and the method returns
`True` for every update outcome. -/
def markSomethingWentWrongAndRotate (record_id : String)
    (apiResult : Except String AirRecord) : Bool :=
  let _ := updateRecordFields record_id
    [("Something Went Wrong", .scalar (.bool true))] apiResult
  true

/-- The array-field normalization of `get_single_active_account`
(lines 155-164), for one key:
`record_fields[key] = record_fields.get(key, [None])[0] if
isinstance(record_fields.get(key), list) else record_fields.get(key)`.
Indexing `[0]` into a present-but-empty list raises `IndexError`,
modelled as `none` (the `[None]` default is dead: a missing key is not a
list, so it takes the else branch).  In every other case the key is
assigned (so it is present afterwards even if it was missing before). -/
def normalizeArrayField (record_fields : List (String × Value)) (key : String) :
    Option (List (String × Value)) :=
  match getField record_fields key with
  | .list [] => none
  | .list (c :: _) => some (setField record_fields key (.scalar c))
  | v => some (setField record_fields key v)

/-- The dict returned by `get_single_active_account` (lines 171-176). -/
structure ActiveAccount where
  id : String
  fields : List (String × Value)
  base_id : String
  table_id : String
deriving DecidableEq, Repr

/-- `get_single_active_account(base_id, table_id, view_id)`
(lines 132-183).  `apiResult` is the outcome of
`table.all(view=view_id, fields=[...], max_records=1)`; `view_id` only
parametrizes that request.  An empty record list returns `None`
(lines 146-148); otherwise `records[0]` has its `Package Name` and then
its `Device ID` normalized; any exception (fetch failure, or the
`IndexError` from an empty-list field) is caught at lines 178-183 and
turned into `None`. -/
def getSingleActiveAccount (apiResult : Except String (List AirRecord))
    (base_id table_id view_id : String) : Option ActiveAccount :=
  match apiResult with
  | .error _ => none
  | .ok [] => none
  | .ok (record :: _) =>
    match normalizeArrayField record.fields "Package Name" with
    | none => none
    | some fields1 =>
      match normalizeArrayField fields1 "Device ID" with
      | none => none
      | some fields2 =>
        some { id := record.id, fields := fields2,
               base_id := base_id, table_id := table_id }

/-- One entry appended to `result` by `get_pending_warmup_records`
(lines 208-213). -/
structure WarmupEntry where
  record_id : String
  username : Value
  device_id : Value
  package_name : Value
deriving DecidableEq, Repr

/-- Lines 208-213: the projection of a warm-up record. -/
def projectWarmup (record : AirRecord) : WarmupEntry :=
  { record_id := record.id,
    username := flatten (getField record.fields "Username"),
    device_id := flatten (getField record.fields "Device ID"),
    package_name := flatten (getField record.fields "Package Name") }

/-- Line 215: `if max_count and len(result) >= max_count: break`.
`max_count` is truthy only when it is a nonzero integer (not `None`,
not `0`). -/
def warmupBreak (max_count : Option Int) (resultLen : Nat) : Bool :=
  match max_count with
  | none => false
  | some n => n != 0 && decide (n ≤ (resultLen : Int))

/-- The `for record in records` loop of `get_pending_warmup_records`
(lines 196-216), with `result` as the accumulator. -/
def warmupLoop (max_count : Option Int) :
    List AirRecord → List WarmupEntry → List WarmupEntry
  | [], result => result.reverse
  | record :: rest, result =>
    if getField record.fields "Status" ≠ Value.scalar (.str "Warmup") then
      warmupLoop max_count rest result
    else if getField record.fields "Daily Warmup Complete" = Value.scalar (.bool true) then
      warmupLoop max_count rest result
    else
      let result' := projectWarmup record :: result
      if warmupBreak max_count result'.length then result'.reverse
      else warmupLoop max_count rest result'

/-- `get_pending_warmup_records(max_count=None)` (lines 188-218).
`apiResult` is the outcome of `table.all(view="Warmup")`.  Unlike every
other method of the class, this one has no `try`/`except`: a fetch
failure propagates to the caller, which the embedding records by
returning the error itself. -/
def getPendingWarmupRecords (apiResult : Except String (List AirRecord))
    (max_count : Option Int) : Except String (List WarmupEntry) :=
  match apiResult with
  | .error e => .error e
  | .ok records => .ok (warmupLoop max_count records [])

/-- Python truthiness of `os.getenv`-style values (`Optional[str]`):
falsy when absent or empty. -/
def envTruthy : Option String → Bool
  | none => false
  | some s => s != ""

/-- The state `__init__` leaves on the client (lines 17, 24-26, 51-53). -/
structure ClientConfig where
  api_key : Option String
  base_id : Option String
  table_id : Option String
  view_name : Option String
deriving DecidableEq, Repr

/-- The `table_map` literal of `__init__` (lines 29-45), as a lookup from
the supplied key to `(base_id, table_id, view)` read from the
environment `env`. -/
def tableMap (env : String → Option String) (key : String) :
    Option (Option String × Option String × String) :=
  if key = "content_alexis" then
    some (env "ALEXIS_BASE_ID", env "ALEXIS_CONTENT_TABLE_ID", "Unposted")
  else if key = "content_maddison" then
    some (env "MADDISON_BASE_ID", env "MADDISON_CONTENT_TABLE_ID", "Unposted")
  else if key = "warmup_accounts" then
    some (env "IG_ARMY_BASE_ID", env "IG_ARMY_WARMUP_ACCOUNTS_TABLE_ID", "Warmup")
  else none

/-- `AirtableClient.__init__(table_key)` (lines 16-56).  `env` is
`os.getenv`.  Raising `ValueError` is modelled as `.error` with the
message of the source.  Note `if table_key:` at line 28 is a truthiness
test, so `None` and the empty string both skip the configuration
block. -/
def airtableClientInit (env : String → Option String) (table_key : Option String) :
    Except String ClientConfig :=
  let api_key := env "AIRTABLE_API_KEY"
  if !envTruthy api_key then
    .error "Missing AIRTABLE_API_KEY in environment variables"
  else if envTruthy table_key then
    let tk := table_key.getD ""
    match tableMap env tk with
    | none => .error ("Unsupported table key: " ++ tk)
    | some (base_id, table_id, view) =>
      if envTruthy base_id && envTruthy table_id && view != "" then
        .ok { api_key := api_key, base_id := base_id,
              table_id := table_id, view_name := some view }
      else
        .error ("Missing required environment variables for table key: " ++ tk)
  else
    .ok { api_key := api_key, base_id := none, table_id := none, view_name := none }

/-- Specification-side predicate: the `Schedule Date` field of the record
is either a string or falsy (so iterating it in
`get_unposted_records_for_today` cannot raise `AttributeError`). -/
def scheduleWellTyped (record : AirRecord) : Bool :=
  match getField record.fields "Schedule Date" with
  | .scalar (.str _) => true
  | v => !v.truthy

/-- Specification-side predicate: the stored `Schedule Date` of the record as a
string, truncated to its date portion, equals the current Bogota date
string. -/
def scheduleMatches (todayStr : String) (record : AirRecord) : Bool :=
  match getField record.fields "Schedule Date" with
  | .scalar (.str s) => dateOnly s == todayStr
  | _ => false

/-- Specification-side predicate for warm-up eligibility: `Status` equals
the sentinel `"Warmup"` and `Daily Warmup Complete` is not `True`. -/
def warmupMatches (record : AirRecord) : Bool :=
  decide (getField record.fields "Status" = Value.scalar (.str "Warmup"))
    && !decide (getField record.fields "Daily Warmup Complete" = Value.scalar (.bool true))

/-! ### Helper lemmas -/

theorem warmupBreak_none (len : Nat) : warmupBreak none len = false := rfl

theorem warmupBreak_zero (len : Nat) : warmupBreak (some 0) len = false := by
  simp [warmupBreak]

theorem warmupLoop_skip (max_count : Option Int) (r : AirRecord)
    (rest : List AirRecord) (acc : List WarmupEntry)
    (hm : warmupMatches r = false) :
    warmupLoop max_count (r :: rest) acc = warmupLoop max_count rest acc := by
  by_cases h1 : getField r.fields "Status" = Value.scalar (.str "Warmup")
  · by_cases h2 : getField r.fields "Daily Warmup Complete" = Value.scalar (.bool true)
    · simp [warmupLoop, h1, h2]
    · exfalso
      simp [warmupMatches, h1, h2] at hm
  · simp [warmupLoop, h1]

theorem warmupLoop_match_step (max_count : Option Int) (r : AirRecord)
    (rest : List AirRecord) (acc : List WarmupEntry)
    (hm : warmupMatches r = true) :
    warmupLoop max_count (r :: rest) acc
      = (if warmupBreak max_count (projectWarmup r :: acc).length
         then (projectWarmup r :: acc).reverse
         else warmupLoop max_count rest (projectWarmup r :: acc)) := by
  simp [warmupMatches, Bool.and_eq_true, decide_eq_true_iff] at hm
  simp [warmupLoop, hm.1, hm.2]

theorem warmupLoop_none_eq (records : List AirRecord) (acc : List WarmupEntry) :
    warmupLoop none records acc
      = acc.reverse ++ (records.filter warmupMatches).map projectWarmup := by
  induction records generalizing acc with
  | nil => simp [warmupLoop]
  | cons r rest ih =>
    by_cases hm : warmupMatches r = true
    · rw [warmupLoop_match_step none r rest acc hm]
      simp [warmupBreak_none, List.filter_cons, hm, ih]
    · have hm' : warmupMatches r = false := by
        cases h : warmupMatches r
        · rfl
        · exact absurd h hm
      rw [warmupLoop_skip none r rest acc hm']
      simp [List.filter_cons, hm', ih]

theorem warmupLoop_zero_eq (records : List AirRecord) (acc : List WarmupEntry) :
    warmupLoop (some 0) records acc = warmupLoop none records acc := by
  induction records generalizing acc with
  | nil => simp [warmupLoop]
  | cons r rest ih =>
    by_cases hm : warmupMatches r = true
    · rw [warmupLoop_match_step (some 0) r rest acc hm,
          warmupLoop_match_step none r rest acc hm]
      simp [warmupBreak_zero, warmupBreak_none, ih]
    · have hm' : warmupMatches r = false := by
        cases h : warmupMatches r
        · rfl
        · exact absurd h hm
      rw [warmupLoop_skip (some 0) r rest acc hm',
          warmupLoop_skip none r rest acc hm']
      exact ih acc

theorem warmupLoop_pos_eq (n : Int) (records : List AirRecord)
    (acc : List WarmupEntry) (hlt : (acc.length : Int) < n) :
    warmupLoop (some n) records acc
      = acc.reverse
        ++ ((records.filter warmupMatches).map projectWarmup).take (n - acc.length).toNat := by
  induction records generalizing acc with
  | nil => simp [warmupLoop]
  | cons r rest ih =>
    by_cases hm : warmupMatches r = true
    · rw [warmupLoop_match_step (some n) r rest acc hm]
      by_cases hbr : warmupBreak (some n) (projectWarmup r :: acc).length = true
      · have hn : n = (acc.length : Int) + 1 := by
          simp [warmupBreak] at hbr
          omega
        have htake : (n - (acc.length : Int)).toNat = 1 := by omega
        rw [if_pos hbr]
        simp [List.filter_cons, hm, htake, List.reverse_cons]
      · have hbr' : warmupBreak (some n) (projectWarmup r :: acc).length = false := by
          cases h : warmupBreak (some n) (projectWarmup r :: acc).length
          · rfl
          · exact absurd h hbr
        have hgt : ((projectWarmup r :: acc).length : Int) < n := by
          simp [warmupBreak] at hbr'
          simp only [List.length_cons]
          push_cast
          omega
        rw [if_neg (by rw [hbr']; simp)]
        rw [ih (projectWarmup r :: acc) hgt]
        have htake : (n - (acc.length : Int)).toNat
            = (n - ((acc.length : Int) + 1)).toNat + 1 := by
          simp only [List.length_cons] at hgt
          push_cast at hgt
          omega
        simp [List.filter_cons, hm, htake, List.take_succ_cons, List.reverse_cons,
          List.append_assoc]
    · have hm' : warmupMatches r = false := by
        cases h : warmupMatches r
        · rfl
        · exact absurd h hm
      rw [warmupLoop_skip (some n) r rest acc hm']
      simp [List.filter_cons, hm', ih acc hlt]

/-! ### Claim theorems -/

/-- Claim C1 (code bug): `mark_something_went_wrong_and_rotate` is
specified to return whether the underlying update of
`Something Went Wrong` succeeded, and its own `try`/`except` shows that
intent, but `update_record_fields` catches every exception internally
and returns `None`, so the `except`/`return False` branch is
unreachable: on a failed update the method still returns `True` while
the update result is `None`. -/
theorem mark_returns_true_even_when_update_fails :
    markSomethingWentWrongAndRotate "rec123" (Except.error "HTTPError") = true
    ∧ updateRecordFields "rec123" [("Something Went Wrong", Value.scalar (.bool true))]
        (Except.error "HTTPError") = none :=
  ⟨rfl, rfl⟩

/-- Claim C2 (counterexample): fetching pending warm-up records does not
convert a fetch failure into a benign result — `get_pending_warmup_records`
has no `try`/`except`, so the failure propagates to the caller. -/
theorem warmup_fetch_propagates_failure :
    getPendingWarmupRecords (Except.error "network unreachable") none
      = Except.error "network unreachable" := rfl

/-- Claim C2 (amended): every operation of the client other than
construction and `get_pending_warmup_records` catches any failure of the
underlying call and returns a benign empty/`None`/`True` result;
`get_pending_warmup_records` alone propagates the failure. -/
theorem operations_error_conversion (e todayStr : String) (maxCount : Int)
    (record_id : String) (fields : List (String × Value))
    (base_id table_id view_id : String) (max_count : Option Int) :
    getUnpostedRecordsForToday (Except.error e) todayStr maxCount = []
    ∧ updateRecordFields record_id fields (Except.error e) = none
    ∧ markSomethingWentWrongAndRotate record_id (Except.error e) = true
    ∧ getSingleActiveAccount (Except.error e) base_id table_id view_id = none
    ∧ getPendingWarmupRecords (Except.error e) max_count = Except.error e :=
  ⟨rfl, rfl, rfl, rfl, rfl⟩

/-- Claim C3 (counterexample): an empty linked-record list is not
normalized to `None`: in the warm-up fetch a record whose `Username`
field is the empty list comes back with `username` still the empty
list, which is a different Python value from `None`. -/
theorem empty_list_not_normalized_to_none :
    getPendingWarmupRecords
      (Except.ok [AirRecord.mk "recA"
        [("Status", Value.scalar (.str "Warmup")),
         ("Username", Value.list [])]]) none
      = Except.ok [WarmupEntry.mk "recA" (Value.list []) Value.vnone Value.vnone]
    ∧ Value.list [] ≠ Value.vnone :=
  ⟨rfl, by decide⟩

/-- Claim C3 (amended): across the three fetches, a nonempty
linked-record list is normalized to its first scalar element and a
non-list value passes through unchanged; an empty list, however, passes
through unchanged (as an empty list) in the due-record and warm-up
normalization (`flatten`), while in the single-account normalization the
`[0]` indexing raises, so `normalizeArrayField` signals the exception
(and the whole call returns `None`). -/
theorem flatten_normalization_behaviour (c : Scalar) (cs : List Scalar)
    (s : String) (b : Bool)
    (record_fields : List (String × Value)) (key : String)
    (h : getField record_fields key = Value.list []) :
    flatten (Value.list (c :: cs)) = Value.scalar c
    ∧ flatten (Value.scalar (.str s)) = Value.scalar (.str s)
    ∧ flatten (Value.scalar (.bool b)) = Value.scalar (.bool b)
    ∧ flatten Value.vnone = Value.vnone
    ∧ flatten (Value.list []) = Value.list []
    ∧ normalizeArrayField record_fields key = none := by
  refine ⟨rfl, rfl, rfl, rfl, rfl, ?_⟩
  unfold normalizeArrayField
  rw [h]

/-- Witness for the amended C3 theorem at concrete inputs. -/
theorem flatten_normalization_behaviour_witness :
    flatten (Value.list [Scalar.str "com.app"]) = Value.scalar (Scalar.str "com.app")
    ∧ flatten (Value.scalar (.str "plain")) = Value.scalar (.str "plain")
    ∧ flatten (Value.scalar (.bool true)) = Value.scalar (.bool true)
    ∧ flatten Value.vnone = Value.vnone
    ∧ flatten (Value.list []) = Value.list []
    ∧ normalizeArrayField [("Package Name", Value.list [])] "Package Name" = none :=
  flatten_normalization_behaviour (Scalar.str "com.app") [] "plain" true
    [("Package Name", Value.list [])] "Package Name" (by decide)

/-- Claim C9: calling `get_pending_warmup_records` with `max_count = 0`
applies no truncation at all, because `if max_count and ...` treats `0`
as falsy: the result is identical to the call with `max_count` omitted,
namely every matching record. -/
theorem warmup_zero_maxcount_no_truncation
    (apiResult : Except String (List AirRecord)) (records : List AirRecord) :
    getPendingWarmupRecords apiResult (some 0) = getPendingWarmupRecords apiResult none
    ∧ getPendingWarmupRecords (Except.ok records) (some 0)
      = Except.ok ((records.filter warmupMatches).map projectWarmup) := by
  constructor
  · cases apiResult with
    | error e => rfl
    | ok records => simp [getPendingWarmupRecords, warmupLoop_zero_eq]
  · simp [getPendingWarmupRecords, warmupLoop_zero_eq, warmupLoop_none_eq]

/-- Claim C5 (counterexample): with `max_count = 0` the warm-up fetch is
not truncated to at most `0` records: `0` is falsy, so both matching
records come back. -/
theorem warmup_given_zero_maxcount_untruncated :
    getPendingWarmupRecords
      (Except.ok [AirRecord.mk "w1" [("Status", Value.scalar (.str "Warmup"))],
                  AirRecord.mk "w2" [("Status", Value.scalar (.str "Warmup"))]])
      (some 0)
      = Except.ok [WarmupEntry.mk "w1" Value.vnone Value.vnone Value.vnone,
                   WarmupEntry.mk "w2" Value.vnone Value.vnone Value.vnone] := rfl

/-- Claim C5 (amended): the warm-up fetch returns exactly the records
whose `Status` equals the sentinel `"Warmup"` and whose
`Daily Warmup Complete` flag is not `True` (so a record with the flag
set is excluded even when its status matches), each projected with the
three linked-record fields flattened, and the result is truncated to at
most `max_count` records when the given `max_count` is positive (a zero
`max_count` is falsy and applies no truncation). -/
theorem warmup_filter_and_positive_truncation (records : List AirRecord)
    (n : Int) (hpos : 1 ≤ n) :
    getPendingWarmupRecords (Except.ok records) (some n)
      = Except.ok (((records.filter warmupMatches).map projectWarmup).take n.toNat) := by
  show Except.ok (warmupLoop (some n) records []) = _
  rw [warmupLoop_pos_eq n records []
    (by simp only [List.length_nil, Nat.cast_zero]; omega)]
  simp

/-- Witness for the amended C5 theorem: with two matching records and
`max_count = 1` only the first comes back. -/
theorem warmup_filter_and_positive_truncation_witness :
    getPendingWarmupRecords
      (Except.ok [AirRecord.mk "w3" [("Status", Value.scalar (.str "Warmup"))],
                  AirRecord.mk "w4" [("Status", Value.scalar (.str "Warmup"))]])
      (some 1)
      = Except.ok [WarmupEntry.mk "w3" Value.vnone Value.vnone Value.vnone] := by
  rw [warmup_filter_and_positive_truncation _ 1 (by decide)]
  rfl

theorem unpostedLoop_skip (todayStr : String) (maxCount : Int) (r : AirRecord)
    (rest : List AirRecord) (acc : List UnpostedEntry)
    (hwtr : scheduleWellTyped r = true)
    (hm : scheduleMatches todayStr r = false) :
    unpostedLoop todayStr maxCount (r :: rest) acc
      = unpostedLoop todayStr maxCount rest acc := by
  cases hv : getField r.fields "Schedule Date" with
  | vnone => simp [unpostedLoop, hv, Value.truthy]
  | scalar c =>
    cases c with
    | str s =>
      by_cases hs : s = ""
      · subst hs
        simp [unpostedLoop, hv, Value.truthy]
      · have hds : dateOnly s ≠ todayStr := by
          simp [scheduleMatches, hv] at hm
          exact hm
        simp [unpostedLoop, hv, Value.truthy, hs, hds]
    | bool b =>
      have hb : b = false := by
        simp [scheduleWellTyped, hv, Value.truthy] at hwtr
        exact hwtr
      subst hb
      simp [unpostedLoop, hv, Value.truthy]
  | list vs =>
    have hvs : vs = [] := by
      simp [scheduleWellTyped, hv, Value.truthy] at hwtr
      exact hwtr
    subst hvs
    simp [unpostedLoop, hv, Value.truthy]

theorem unpostedLoop_match_step (todayStr : String) (maxCount : Int) (r : AirRecord)
    (rest : List AirRecord) (acc : List UnpostedEntry)
    (htoday : todayStr ≠ "") (hm : scheduleMatches todayStr r = true) :
    unpostedLoop todayStr maxCount (r :: rest) acc
      = (if decide (maxCount ≤ ((projectUnposted r :: acc).length : Int))
         then some (projectUnposted r :: acc).reverse
         else unpostedLoop todayStr maxCount rest (projectUnposted r :: acc)) := by
  cases hv : getField r.fields "Schedule Date" with
  | vnone => simp [scheduleMatches, hv] at hm
  | scalar c =>
    cases c with
    | str s =>
      have hds : dateOnly s = todayStr := by
        simp [scheduleMatches, hv] at hm
        exact hm
      have hs : s ≠ "" := by
        intro h
        subst h
        rw [show dateOnly "" = "" from rfl] at hds
        exact htoday hds.symm
      simp [unpostedLoop, hv, Value.truthy, hs, hds]
    | bool b => simp [scheduleMatches, hv] at hm
  | list vs => simp [scheduleMatches, hv] at hm

theorem unpostedLoop_eq (todayStr : String) (maxCount : Int)
    (records : List AirRecord) (acc : List UnpostedEntry)
    (htoday : todayStr ≠ "")
    (hwt : ∀ r ∈ records, scheduleWellTyped r = true)
    (hlt : (acc.length : Int) < maxCount) :
    unpostedLoop todayStr maxCount records acc
      = some (acc.reverse
          ++ ((records.filter (scheduleMatches todayStr)).map projectUnposted).take
              (maxCount - acc.length).toNat) := by
  induction records generalizing acc with
  | nil => simp [unpostedLoop]
  | cons r rest ih =>
    have hwtr : scheduleWellTyped r = true := hwt r (List.mem_cons_self r rest)
    have hwtrest : ∀ x ∈ rest, scheduleWellTyped x = true :=
      fun x hx => hwt x (List.mem_cons_of_mem r hx)
    by_cases hm : scheduleMatches todayStr r = true
    · rw [unpostedLoop_match_step todayStr maxCount r rest acc htoday hm]
      by_cases hbr : maxCount ≤ ((projectUnposted r :: acc).length : Int)
      · have hn : maxCount = (acc.length : Int) + 1 := by
          simp only [List.length_cons] at hbr
          push_cast at hbr
          omega
        have htake : (maxCount - (acc.length : Int)).toNat = 1 := by omega
        rw [if_pos (by simpa using hbr)]
        simp [List.filter_cons, hm, htake, List.reverse_cons]
      · have hgt : ((projectUnposted r :: acc).length : Int) < maxCount := by
          simp only [List.length_cons] at hbr ⊢
          push_cast at hbr ⊢
          omega
        rw [if_neg (by simpa using hbr)]
        rw [ih (projectUnposted r :: acc) hwtrest hgt]
        have htake : (maxCount - (acc.length : Int)).toNat
            = (maxCount - ((acc.length : Int) + 1)).toNat + 1 := by
          simp only [List.length_cons] at hgt
          push_cast at hgt
          omega
        simp [List.filter_cons, hm, htake, List.take_succ_cons, List.reverse_cons,
          List.append_assoc]
    · have hm' : scheduleMatches todayStr r = false := by
        cases h : scheduleMatches todayStr r
        · rfl
        · exact absurd h hm
      rw [unpostedLoop_skip todayStr maxCount r rest acc hwtr hm']
      simp [List.filter_cons, hm', ih acc hwtrest hlt]

/-- Claim C4 (counterexample): with `max_count = 0` the due-record fetch
is not truncated to at most `0` records: the cap is only checked after a
record has been appended, so the first matching record is returned. -/
theorem unposted_maxcount_zero_still_returns_a_record :
    (getUnpostedRecordsForToday
      (Except.ok [AirRecord.mk "r1"
        [("Schedule Date", Value.scalar (.str "2025-04-05T00:00:00.000Z")),
         ("Username", Value.scalar (.str "alice"))]])
      "2025-04-05" 0).length = 1 := rfl

/-- Claim C4 (amended): for every `max_count ≥ 1` and every record list
whose `Schedule Date` values are strings where truthy, fetching due
records returns exactly those records whose stored `Schedule Date`
string, truncated to its date portion at the first `T`, equals the
current Bogota date string (a nonempty `%Y-%m-%d` string), in view
order, truncated to at most `max_count` records, each projected to
id/username/package_name/media_url; for `max_count ≤ 0` the cap fails
and the first matching record is still returned. -/
theorem unposted_returns_dated_matches_truncated (records : List AirRecord)
    (todayStr : String) (maxCount : Int) (htoday : todayStr ≠ "")
    (hwt : ∀ r ∈ records, scheduleWellTyped r = true) (hpos : 1 ≤ maxCount) :
    getUnpostedRecordsForToday (Except.ok records) todayStr maxCount
      = ((records.filter (scheduleMatches todayStr)).map projectUnposted).take
          maxCount.toNat := by
  show (match unpostedLoop todayStr maxCount records [] with
        | some matching => matching
        | none => []) = _
  rw [unpostedLoop_eq todayStr maxCount records [] htoday hwt
    (by simp only [List.length_nil, Nat.cast_zero]; omega)]
  simp

/-- Witness for the amended C4 theorem: four records with mixed schedule
dates, `max_count = 2`: the two records dated 2025-04-05 come back, the
undated and the 2025-04-06 record do not. -/
theorem unposted_returns_dated_matches_truncated_witness :
    getUnpostedRecordsForToday
      (Except.ok
        [AirRecord.mk "r1"
          [("Schedule Date", Value.scalar (.str "2025-04-05T00:00:00.000Z"))],
         AirRecord.mk "r2" [("Username", Value.scalar (.str "bob"))],
         AirRecord.mk "r3"
          [("Schedule Date", Value.scalar (.str "2025-04-06T00:00:00.000Z"))],
         AirRecord.mk "r4"
          [("Schedule Date", Value.scalar (.str "2025-04-05T23:59:00.000Z"))]])
      "2025-04-05" 2
      = [UnpostedEntry.mk "r1" (UnpostedFields.mk Value.vnone Value.vnone Value.vnone),
         UnpostedEntry.mk "r4" (UnpostedFields.mk Value.vnone Value.vnone Value.vnone)] := by
  rw [unposted_returns_dated_matches_truncated _ _ _ (by decide) (by decide) (by decide)]
  rfl

/-- Claim C8: in the due-record fetch only `Package Name` is flattened;
the `Username` and `Drive URL` values are projected exactly as stored
(for every stored value, including list values). -/
theorem unposted_projection_flattens_only_package (us mu pkg : Value)
    (rid : String) :
    getUnpostedRecordsForToday
      (Except.ok [AirRecord.mk rid
        [("Schedule Date", Value.scalar (.str "2025-04-05T10:30:00.000Z")),
         ("Username", us), ("Drive URL", mu), ("Package Name", pkg)]])
      "2025-04-05" 1
      = [UnpostedEntry.mk rid (UnpostedFields.mk us (flatten pkg) mu)] := rfl

theorem getField_setField_ne (fields : List (String × Value)) (k k2 : String)
    (v : Value) (h : k ≠ k2) :
    getField (setField fields k v) k2 = getField fields k2 := by
  induction fields with
  | nil => simp [setField, getField, h]
  | cons p rest ih =>
    obtain ⟨pk, pv⟩ := p
    by_cases hpk : pk = k
    · subst hpk
      simp [setField, getField, h]
    · simp [setField, getField, hpk, ih]

theorem normalizeArrayField_preserves_other (record_fields fields1 : List (String × Value))
    (key k2 : String) (h : normalizeArrayField record_fields key = some fields1)
    (hne : key ≠ k2) : getField fields1 k2 = getField record_fields k2 := by
  unfold normalizeArrayField at h
  cases hv : getField record_fields key with
  | vnone =>
    rw [hv] at h
    simp at h
    rw [← h]
    exact getField_setField_ne record_fields key k2 _ hne
  | scalar c =>
    rw [hv] at h
    simp at h
    rw [← h]
    exact getField_setField_ne record_fields key k2 _ hne
  | list vs =>
    cases vs with
    | nil =>
      rw [hv] at h
      simp at h
    | cons c cs =>
      rw [hv] at h
      simp at h
      rw [← h]
      exact getField_setField_ne record_fields key k2 _ hne

/-- Claim C10: in `get_single_active_account`, a fetched record whose
`Package Name` or `Device ID` field is present and equal to an empty
list makes the whole call return `None`: the `[0]` indexing raises
`IndexError`, which the generic `except` handler catches. -/
theorem single_account_empty_list_field_returns_none
    (base_id table_id view_id : String) (record : AirRecord)
    (rest : List AirRecord)
    (h : getField record.fields "Package Name" = Value.list []
       ∨ getField record.fields "Device ID" = Value.list []) :
    getSingleActiveAccount (Except.ok (record :: rest)) base_id table_id view_id
      = none := by
  rcases h with h | h
  · have hpn : normalizeArrayField record.fields "Package Name" = none := by
      unfold normalizeArrayField
      rw [h]
    simp [getSingleActiveAccount, hpn]
  · cases hpn : normalizeArrayField record.fields "Package Name" with
    | none => simp [getSingleActiveAccount, hpn]
    | some fields1 =>
      have hdi : getField fields1 "Device ID" = Value.list [] := by
        rw [normalizeArrayField_preserves_other record.fields fields1
          "Package Name" "Device ID" hpn (by decide)]
        exact h
      have hnd : normalizeArrayField fields1 "Device ID" = none := by
        unfold normalizeArrayField
        rw [hdi]
      simp [getSingleActiveAccount, hpn, hnd]

/-- Witness for the C10 theorem at a concrete record whose
`Package Name` is the empty list. -/
theorem single_account_empty_list_field_returns_none_witness :
    getSingleActiveAccount
      (Except.ok [AirRecord.mk "rec1" [("Package Name", Value.list [])]])
      "appBase" "tblAccounts" "viewUnused" = none :=
  single_account_empty_list_field_returns_none "appBase" "tblAccounts" "viewUnused"
    (AirRecord.mk "rec1" [("Package Name", Value.list [])]) [] (Or.inl (by decide))

/-- Claim C6 (counterexample): a record exists in the pool view, yet
`get_single_active_account` returns `None` instead of the record,
because its `Device ID` field is an empty list and the normalization
raises. -/
theorem record_exists_but_single_account_returns_none :
    getSingleActiveAccount
      (Except.ok [AirRecord.mk "recX"
        [("Account", Value.scalar (.str "iguser")),
         ("Device ID", Value.list [])]])
      "baseX" "tableX" "viewX" = none := rfl

/-- Claim C6 (amended): `get_single_active_account` depends only on the
first record of the response (it requests `max_records=1` and reads
`records[0]`); an empty view and a failed fetch both return `None`
without raising; and when a record exists whose `Package Name` and
`Device ID` normalizations succeed (neither is an empty list), it
returns the id of the record and its fields with those two keys normalized,
together with the `base_id` and `table_id` it was fetched from. -/
theorem single_account_first_record_or_none (apiRecords : List AirRecord)
    (e base_id table_id view_id : String) (record : AirRecord)
    (rest : List AirRecord) (fields1 fields2 : List (String × Value))
    (h1 : normalizeArrayField record.fields "Package Name" = some fields1)
    (h2 : normalizeArrayField fields1 "Device ID" = some fields2) :
    getSingleActiveAccount (Except.ok apiRecords) base_id table_id view_id
      = getSingleActiveAccount (Except.ok (apiRecords.take 1)) base_id table_id view_id
    ∧ getSingleActiveAccount (Except.ok []) base_id table_id view_id = none
    ∧ getSingleActiveAccount (Except.error e) base_id table_id view_id = none
    ∧ getSingleActiveAccount (Except.ok (record :: rest)) base_id table_id view_id
      = some (ActiveAccount.mk record.id fields2 base_id table_id) := by
  refine ⟨?_, rfl, rfl, ?_⟩
  · cases apiRecords with
    | nil => rfl
    | cons r rs => rfl
  · simp [getSingleActiveAccount, h1, h2]

/-- Witness for the amended C6 theorem at a concrete two-record pool and
a concrete normalizable record. -/
theorem single_account_first_record_or_none_witness :
    getSingleActiveAccount
      (Except.ok [AirRecord.mk "a1" [], AirRecord.mk "a2" []]) "b" "t" "v"
      = getSingleActiveAccount
          (Except.ok ([AirRecord.mk "a1" [], AirRecord.mk "a2" []].take 1)) "b" "t" "v"
    ∧ getSingleActiveAccount (Except.ok []) "b" "t" "v" = none
    ∧ getSingleActiveAccount (Except.error "timeout") "b" "t" "v" = none
    ∧ getSingleActiveAccount
        (Except.ok [AirRecord.mk "recY"
          [("Package Name", Value.list [Scalar.str "com.insta"]),
           ("Device ID", Value.scalar (.str "devA"))]]) "b" "t" "v"
      = some (ActiveAccount.mk "recY"
          [("Package Name", Value.scalar (.str "com.insta")),
           ("Device ID", Value.scalar (.str "devA"))] "b" "t") :=
  single_account_first_record_or_none
    [AirRecord.mk "a1" [], AirRecord.mk "a2" []] "timeout" "b" "t" "v"
    (AirRecord.mk "recY"
      [("Package Name", Value.list [Scalar.str "com.insta"]),
       ("Device ID", Value.scalar (.str "devA"))]) []
    [("Package Name", Value.scalar (.str "com.insta")),
     ("Device ID", Value.scalar (.str "devA"))]
    [("Package Name", Value.scalar (.str "com.insta")),
     ("Device ID", Value.scalar (.str "devA"))]
    (by decide) (by decide)

/-- Claim C7: construction raises `ValueError` immediately when a
required environment variable is missing: always when the API key is
absent (or empty); and, when a (truthy) configuration key is supplied,
when the key is not in the lookup table, or when any of the resolved
base id, table id, or view name is missing/falsy. -/
theorem init_raises_on_missing_env (env : String → Option String)
    (table_key : Option String) (tk : String)
    (base_id table_id : Option String) (view : String) :
    (envTruthy (env "AIRTABLE_API_KEY") = false →
      airtableClientInit env table_key
        = Except.error "Missing AIRTABLE_API_KEY in environment variables")
    ∧ (envTruthy (env "AIRTABLE_API_KEY") = true → tk ≠ "" →
      tableMap env tk = none →
      airtableClientInit env (some tk)
        = Except.error ("Unsupported table key: " ++ tk))
    ∧ (envTruthy (env "AIRTABLE_API_KEY") = true → tk ≠ "" →
      tableMap env tk = some (base_id, table_id, view) →
      (envTruthy base_id && envTruthy table_id && view != "") = false →
      airtableClientInit env (some tk)
        = Except.error ("Missing required environment variables for table key: " ++ tk)) := by
  have envTruthy_some : ∀ s : String, envTruthy (some s) = (s != "") := fun _ => rfl
  refine ⟨?_, ?_, ?_⟩
  · intro hkey
    simp [airtableClientInit, hkey]
  · intro hkey htk hmap
    have htk2 : (tk != "") = true := by simpa using htk
    simp [airtableClientInit, hkey, envTruthy_some, htk2, hmap]
  · intro hkey htk hmap hfalsy
    have htk2 : (tk != "") = true := by simpa using htk
    have hneg : ¬((envTruthy base_id = true ∧ envTruthy table_id = true) ∧ ¬view = "") := by
      intro hc
      rw [hc.1.1, hc.1.2] at hfalsy
      simp at hfalsy
      exact hc.2 hfalsy
    simp [airtableClientInit, hkey, envTruthy_some, htk2, hmap, hneg]

/-- Witness for the C7 theorem: a missing API key, an unsupported table
key, and a supported table key whose base/table ids are unset, each at a
concrete environment. -/
theorem init_raises_on_missing_env_witness :
    airtableClientInit (fun _ => none) none
      = Except.error "Missing AIRTABLE_API_KEY in environment variables"
    ∧ airtableClientInit
        (fun name => if name = "AIRTABLE_API_KEY" then some "key123" else none)
        (some "bogus")
      = Except.error ("Unsupported table key: " ++ "bogus")
    ∧ airtableClientInit
        (fun name => if name = "AIRTABLE_API_KEY" then some "key123" else none)
        (some "warmup_accounts")
      = Except.error ("Missing required environment variables for table key: "
          ++ "warmup_accounts") :=
  ⟨(init_raises_on_missing_env (fun _ => none) none "x" none none "").1 rfl,
   (init_raises_on_missing_env
      (fun name => if name = "AIRTABLE_API_KEY" then some "key123" else none)
      (some "bogus") "bogus" none none "").2.1 rfl (by decide) rfl,
   (init_raises_on_missing_env
      (fun name => if name = "AIRTABLE_API_KEY" then some "key123" else none)
      (some "warmup_accounts") "warmup_accounts" none none "Warmup").2.2 rfl
      (by decide) rfl rfl⟩
